import Mathlib

/-!
Verification of the krishi-mitra backend: a FastAPI relay that forwards
farmer queries (text or images) to a hosted multimodal LLM.

The embedding models:
* the filesystem seen by the handlers as a map from path to byte content;
* the remote model (`llm.ainvoke`) as an oracle that either returns a
  response or raises, mirroring the fact that the network call is the
  only genuinely fallible step inside each service `try` block;
* the three service operations of `app/services/llm_service.py` and the
  three route handlers of `app/api/routes/advisory.py` and
  `app/api/routes/dd.py`, including dependency resolution
  (`get_llm_service`), the temporary-file lifecycle, and the
  exception-rewrapping behaviour of the generic `except` branch
  (FastAPI's HTTPException subclasses Exception, so a raise inside the
  `try` is caught by `except Exception` and rewrapped; `str` of a
  Starlette HTTPException is its status code, a colon-space, and
  its detail).
-/

namespace KrishiMitra

/-- Byte strings are modelled as lists of naturals (each a byte value). -/
abbrev Bytes := List Nat

/-- The filesystem visible to a handler: a map from path to file content.
`none` means the path does not exist. -/
abbrev FS := String → Option Bytes

/-- Writing a file: `open(path, "wb")` followed by writing all content. -/
def FS.write (fs : FS) (p : String) (b : Bytes) : FS :=
  fun q => if q = p then some b else fs q

/-- Removing a file: `os.remove(path)`. -/
def FS.remove (fs : FS) (p : String) : FS :=
  fun q => if q = p then none else fs q

/-- One part of a multimodal message content list
(the dictionaries built in `get_image_advisory` / `detect_disease`). -/
inductive ContentPart where
  | text (t : String)
  | image_url (url : String)
deriving DecidableEq, Repr

/-- The `content` of a `HumanMessage`: a plain string (text advisory)
or a list of parts (image endpoints). -/
inductive MsgContent where
  | str (s : String)
  | parts (ps : List ContentPart)
deriving DecidableEq, Repr

/-- A `langchain_core.messages.HumanMessage`. -/
structure HumanMessage where
  content : MsgContent
deriving DecidableEq, Repr

/-- The response object returned by `llm.ainvoke`. -/
structure LLMResponse where
  content : String
deriving DecidableEq, Repr

/-- The remote model: `llm.ainvoke(messages)` either returns a response or
raises an exception carrying a message string. -/
abbrev Oracle := List HumanMessage → Except String LLMResponse

/-- Base64 alphabet (RFC 4648), as used by `base64.b64encode`. -/
def b64Alphabet : List Char :=
  "ABCDEFGHIJKLMNOPQRSTUVWXYZabcdefghijklmnopqrstuvwxyz0123456789+/".toList

/-- The base64 digit for a 6-bit value. -/
def b64Char (n : Nat) : Char := b64Alphabet.getD n 'A'

/-- Base64-encode a byte list, three bytes at a time, padding with `=`. -/
def b64encodeChunks : Bytes → List Char
  | [] => []
  | [b0] =>
      let n := (b0 % 256) * 65536
      [b64Char (n / 262144 % 64), b64Char (n / 4096 % 64), '=', '=']
  | [b0, b1] =>
      let n := (b0 % 256) * 65536 + (b1 % 256) * 256
      [b64Char (n / 262144 % 64), b64Char (n / 4096 % 64), b64Char (n / 64 % 64), '=']
  | b0 :: b1 :: b2 :: rest =>
      let n := (b0 % 256) * 65536 + (b1 % 256) * 256 + (b2 % 256)
      b64Char (n / 262144 % 64) :: b64Char (n / 4096 % 64) :: b64Char (n / 64 % 64)
        :: b64Char (n % 64) :: b64encodeChunks rest

/-- `base64.b64encode(image_bytes).decode("utf-8")`. -/
def b64encode (bs : Bytes) : String := String.mk (b64encodeChunks bs)

/-- Python `template.format(query=q)`: the templates used by the service
contain the single placeholder `{query}` and no other brace, so
formatting is exactly the replacement of that placeholder. -/
def pyFormatQuery (template q : String) : String :=
  template.replace "{query}" q

/-- Python `template.format(language=lang)` for the disease template,
whose only placeholder is `{language}`. -/
def pyFormatLanguage (template lang : String) : String :=
  template.replace "{language}" lang

/-- Python `str(x)` on an `Optional[str]`: `None` prints as `"None"`. -/
def pyOptionStr : Option String → String
  | none => "None"
  | some s => s

/-- A returned JSON-like dictionary with string values, as an ordered
association list. -/
abbrev PyDict := List (String × String)

/-- Python `key in d`. -/
def dictHasKey (d : PyDict) (k : String) : Bool :=
  d.any (fun kv => kv.1 == k)

/-- Python `d[key]` (defaulting to the empty string when absent; the
handlers only index keys they have just tested for). -/
def dictGet (d : PyDict) (k : String) : String :=
  ((d.find? (fun kv => kv.1 == k)).map Prod.snd).getD ""

/-- The advisory prompt set in `LLMService.__init__` (adjacent Python
string literals concatenated). -/
def advisory_prompt_template : String :=
  "You are a smart crop advisory system for small and marginal farmers in India. "
    ++ "Provide real-time, localized advice on crops, soil, and weather. "
    ++ "Integrate information on mandi prices, pest alerts, and government schemes. "
    ++ "Use simple, easy-to-understand language. "
    ++ "Keep the response concise and actionable. "
    ++ "Query: {query}\n\nAdvisory:"

/-- The image-advisory prompt set in `LLMService.__init__`. -/
def image_advisory_prompt_template : String :=
  "You are an intelligent assistant for a crop advisory app. "
    ++ "A farmer has provided a screenshot of their phone and a question. "
    ++ "Based on the image and the query, guide the user on how to navigate the app or use a specific feature. "
    ++ "Explain the steps clearly and concisely. "
    ++ "Query: {query}"

/-- The disease-detection prompt set in `LLMService.__init__`. -/
def disease_detection_prompt_template : String :=
  "You are a crop disease expert. A user has uploaded an image of a plant. "
    ++ "Based on the visual evidence, identify any diseases or pests present and suggest a natural and effective treatment or solution. "
    ++ "The response MUST be simple and easy for a farmer to understand. "
    ++ "Generate the entire response ONLY in {language}. "
    ++ "Provide the following in a structured format:\n"
    ++ "1. **Diagnosis**: [Name of the disease/pest]\n"
    ++ "2. **Symptoms**: [Description of symptoms]\n"
    ++ "3. **Recommended Treatment**: [Clear, actionable steps for a farmer]\n"
    ++ "Example for Hindi (language=Hindi):\n"
    ++ "1. **निदान**: पाउडरी फफूंदी (Powdery Mildew)\n"
    ++ "2. **लक्षण**: पत्तियों और तनों पर सफेद, पाउडर जैसा पदार्थ दिखाई देता है।\n"
    ++ "3. **उपचार**: नीम तेल और पानी का घोल मिलाकर पौधों पर स्प्रे करें।"

/-- The `LLMService` instance: the API key handed to the Gemini client
and the three prompt attributes set in `__init__`. -/
structure LLMService where
  api_key : String
  advisory_prompt : String
  image_advisory_prompt : String
  disease_detection_prompt : String

/-- `LLMService(api_key=...)`: construction with the default model. -/
def LLMService.init (api_key : String) : LLMService :=
  { api_key := api_key
  , advisory_prompt := advisory_prompt_template
  , image_advisory_prompt := image_advisory_prompt_template
  , disease_detection_prompt := disease_detection_prompt_template }

/-- The `HumanMessage` built by `get_advisory`: its `content` is the
advisory prompt formatted with the user query. -/
def LLMService.advisoryMessage (svc : LLMService) (user_query : String) :
    HumanMessage :=
  ⟨.str (pyFormatQuery svc.advisory_prompt user_query)⟩

/-- The multimodal `HumanMessage` built by `get_image_advisory`: a text
part holding the formatted image-advisory prompt and an image part
holding the data URL of the base64-encoded bytes. -/
def LLMService.imageMessage (svc : LLMService) (user_query : String)
    (image_bytes : Bytes) : HumanMessage :=
  ⟨.parts [.text (pyFormatQuery svc.image_advisory_prompt user_query),
           .image_url ("data:image/png;base64," ++ b64encode image_bytes)]⟩

/-- The multimodal `HumanMessage` built by `detect_disease`: a text part
holding the disease prompt formatted with the language and an image part
holding the data URL of the base64-encoded bytes. -/
def LLMService.diseaseMessage (svc : LLMService) (language : Option String)
    (image_bytes : Bytes) : HumanMessage :=
  ⟨.parts [.text (pyFormatLanguage svc.disease_detection_prompt
                    (pyOptionStr language)),
           .image_url ("data:image/png;base64," ++ b64encode image_bytes)]⟩

/-- `LLMService.get_advisory`: format the advisory prompt with the user
query, invoke the model once, and return the stripped content under
`"advisory"`; any exception is caught and returned under `"error"`.
The second component records the `ainvoke` calls made. -/
def LLMService.get_advisory (svc : LLMService) (oracle : Oracle)
    (user_query : String) : PyDict × List (List HumanMessage) :=
  let message := svc.advisoryMessage user_query
  match oracle [message] with
  | .ok response => ([("advisory", response.content.trim)], [[message]])
  | .error e => ([("error", e)], [[message]])

/-- `LLMService.get_image_advisory`: check the image exists (raising
`FileNotFoundError` otherwise, caught by the same `except`), read and
base64-encode it, format the image-advisory prompt with the query, build
the multimodal message, invoke the model once, and return the stripped
content under `"advisory"`; any exception yields `"error"`. -/
def LLMService.get_image_advisory (svc : LLMService) (oracle : Oracle)
    (fs : FS) (image_path user_query : String) :
    PyDict × List (List HumanMessage) :=
  match fs image_path with
  | none => ([("error", "Image not found: " ++ image_path)], [])
  | some image_bytes =>
    let message := svc.imageMessage user_query image_bytes
    match oracle [message] with
    | .ok response => ([("advisory", response.content.trim)], [[message]])
    | .error e => ([("error", e)], [[message]])

/-- `LLMService.detect_disease`: like `get_image_advisory` but the prompt
is the disease template formatted with the language (an `Optional[str]`),
and success is returned under `"analysis"`. -/
def LLMService.detect_disease (svc : LLMService) (oracle : Oracle)
    (fs : FS) (image_path : String) (language : Option String) :
    PyDict × List (List HumanMessage) :=
  match fs image_path with
  | none => ([("error", "Image not found: " ++ image_path)], [])
  | some image_bytes =>
    let message := svc.diseaseMessage language image_bytes
    match oracle [message] with
    | .ok response => ([("analysis", response.content.trim)], [[message]])
    | .error e => ([("error", e)], [[message]])

/-- The application settings the routes read. `none` models an unset
`GEMINI_API_KEY`; the empty string models a set-but-empty one. -/
structure Settings where
  GEMINI_API_KEY : Option String

/-- Python truthiness of `settings.GEMINI_API_KEY`:
`None` and `""` are falsy. -/
def keyConfigured (s : Settings) : Bool :=
  match s.GEMINI_API_KEY with
  | none => false
  | some k => !(k == "")

/-- `get_llm_service` past its configured-key guard: construct the
service from the settings key (identical in both route files). -/
def get_llm_service (settings : Settings) : LLMService :=
  LLMService.init (settings.GEMINI_API_KEY.getD "")

/-- A `fastapi.HTTPException` with a status code and detail string. -/
structure HTTPException where
  status_code : Nat
  detail : String
deriving DecidableEq, Repr

/-- `str(e)` for a Starlette/FastAPI HTTPException:
the status code, a colon and a space, then the detail. -/
def httpExceptionStr (e : HTTPException) : String :=
  toString e.status_code ++ ": " ++ e.detail

/-- An uploaded file: its client-supplied filename and its content. -/
structure UploadFile where
  filename : String
  bytes : Bytes

/-- Everything observable about one handled request: the HTTP response
(or raised HTTPException), the final filesystem, the list of file writes
performed, and the `ainvoke` calls made. -/
structure RouteOut where
  response : Except HTTPException PyDict
  fs : FS
  written : List (String × Bytes)
  calls : List (List HumanMessage)

/-- `GET /text-advisory`: dependency resolution (`get_llm_service`, which
raises 500 when the key is not configured and otherwise constructs the
service), the empty-query 400 guard, the service call, and the 500 raise
when the service surfaced an error dictionary. -/
def get_text_advisory_route (settings : Settings) (oracle : Oracle)
    (user_query : String) :
    Except HTTPException PyDict × List (List HumanMessage) :=
  if keyConfigured settings = false then
    (.error ⟨500, "Gemini API key is not configured."⟩, [])
  else
    let llm_service := get_llm_service settings
    if user_query = "" then
      (.error ⟨400, "Query string cannot be empty."⟩, [])
    else
      let out := llm_service.get_advisory oracle user_query
      if dictHasKey out.1 "error" then
        (.error ⟨500, dictGet out.1 "error"⟩, out.2)
      else
        (.ok out.1, out.2)

/-- `POST /image-advisory`: dependency resolution, `makedirs` on the
scratch directory, saving the upload to `temp_images/<filename>`, the
service call, `os.remove` of the temporary file, and the error raise.
The `HTTPException` raised on an error dictionary is itself an
`Exception`, so the generic `except` catches it; the file was already
removed (so the `os.path.exists` guard skips), and the exception is
rewrapped with the prefix `Failed to process image: ` around `str(e)`. -/
def get_image_advisory_route (settings : Settings) (oracle : Oracle)
    (fs0 : FS) (file : UploadFile) (user_query : String) : RouteOut :=
  if keyConfigured settings = false then
    ⟨.error ⟨500, "Gemini API key is not configured."⟩, fs0, [], []⟩
  else
    let llm_service := get_llm_service settings
    let file_path := "temp_images" ++ "/" ++ file.filename
    let fs1 := FS.write fs0 file_path file.bytes
    let out := llm_service.get_image_advisory oracle fs1 file_path user_query
    let fs2 := FS.remove fs1 file_path
    if dictHasKey out.1 "error" then
      ⟨.error ⟨500, "Failed to process image: "
                ++ httpExceptionStr ⟨500, dictGet out.1 "error"⟩⟩,
       fs2, [(file_path, file.bytes)], out.2⟩
    else
      ⟨.ok out.1, fs2, [(file_path, file.bytes)], out.2⟩

/-- `POST /detect-disease`: as `get_image_advisory_route` but with scratch
directory `temp_images_dd`, a `lang` query parameter that FastAPI defaults
to `"English"` when the request omits it (`langParam = none`), and the
service call `detect_disease`. -/
def detect_crop_disease_route (settings : Settings) (oracle : Oracle)
    (fs0 : FS) (file : UploadFile) (langParam : Option String) : RouteOut :=
  if keyConfigured settings = false then
    ⟨.error ⟨500, "Gemini API key is not configured."⟩, fs0, [], []⟩
  else
    let llm_service := get_llm_service settings
    let lang := langParam.getD "English"
    let file_path := "temp_images_dd" ++ "/" ++ file.filename
    let fs1 := FS.write fs0 file_path file.bytes
    let out := llm_service.detect_disease oracle fs1 file_path (some lang)
    let fs2 := FS.remove fs1 file_path
    if dictHasKey out.1 "error" then
      ⟨.error ⟨500, "Failed to process image: "
                ++ httpExceptionStr ⟨500, dictGet out.1 "error"⟩⟩,
       fs2, [(file_path, file.bytes)], out.2⟩
    else
      ⟨.ok out.1, fs2, [(file_path, file.bytes)], out.2⟩

/-- Modelled from the spec: the answer-sheet grading service variant is
not under `src/`; per the spec it evaluates a single answer-sheet image by
base64-encoding it, formatting a marks-placeholder template, invoking the
remote model once, and surfacing any exception as an `"error"` field. -/
def evaluate_answer_sheet (oracle : Oracle) (marks_template : String)
    (marks : Nat) (image_bytes : Bytes) : PyDict :=
  let encoded_image := b64encode image_bytes
  let full_prompt := marks_template.replace "{marks}" (toString marks)
  let message : HumanMessage :=
    ⟨.parts [.text full_prompt,
             .image_url ("data:image/png;base64," ++ encoded_image)]⟩
  match oracle [message] with
  | .ok response => [("evaluation", response.content.trim)]
  | .error e => [("error", e)]

/-- Modelled from the spec: batch evaluation is a straight sequential loop
over evaluate-single-image, collecting results in arrival order, with no
parallelism, retry, or partial-failure aggregation. -/
def evaluate_answer_sheets_batch (oracle : Oracle) (marks_template : String)
    (marks : Nat) : List Bytes → List PyDict
  | [] => []
  | img :: rest =>
      evaluate_answer_sheet oracle marks_template marks img
        :: evaluate_answer_sheets_batch oracle marks_template marks rest

/-- Concrete settings with a configured key, used to instantiate theorems. -/
def settingsW : Settings := ⟨some "test-key"⟩

/-- Concrete settings with the API key unset. -/
def settingsBad : Settings := ⟨none⟩

/-- A concrete oracle modelling a model invocation that always raises. -/
def errOracle : Oracle := fun _ => Except.error "boom"

/-- A concrete oracle modelling a model invocation that always succeeds,
with content padded by whitespace. -/
def okOracle : Oracle := fun _ => Except.ok ⟨"  advice  "⟩

/-- The empty filesystem. -/
def fsW : FS := fun _ => none

/-- A filesystem holding one image file. -/
def fsOne : FS := FS.write fsW "temp_images/leaf.png" [1, 2, 3]

/-- A concrete upload. -/
def uploadW : UploadFile := ⟨"leaf.png", [1, 2, 3]⟩

/-! ### Helper lemmas -/

theorem FS.write_self (fs : FS) (p : String) (b : Bytes) :
    FS.write fs p b p = some b := by
  simp [FS.write]

theorem get_advisory_ok (svc : LLMService) (oracle : Oracle) (q : String)
    (r : LLMResponse) (h : oracle [svc.advisoryMessage q] = Except.ok r) :
    svc.get_advisory oracle q
      = ([("advisory", r.content.trim)], [[svc.advisoryMessage q]]) := by
  simp only [LLMService.get_advisory, h]

theorem get_advisory_err (svc : LLMService) (oracle : Oracle) (q e : String)
    (h : oracle [svc.advisoryMessage q] = Except.error e) :
    svc.get_advisory oracle q
      = ([("error", e)], [[svc.advisoryMessage q]]) := by
  simp only [LLMService.get_advisory, h]

theorem get_image_advisory_ok (svc : LLMService) (oracle : Oracle) (fs : FS)
    (p q : String) (b : Bytes) (r : LLMResponse) (hfile : fs p = some b)
    (h : oracle [svc.imageMessage q b] = Except.ok r) :
    svc.get_image_advisory oracle fs p q
      = ([("advisory", r.content.trim)], [[svc.imageMessage q b]]) := by
  simp only [LLMService.get_image_advisory, hfile, h]

theorem get_image_advisory_err (svc : LLMService) (oracle : Oracle) (fs : FS)
    (p q e : String) (b : Bytes) (hfile : fs p = some b)
    (h : oracle [svc.imageMessage q b] = Except.error e) :
    svc.get_image_advisory oracle fs p q
      = ([("error", e)], [[svc.imageMessage q b]]) := by
  simp only [LLMService.get_image_advisory, hfile, h]

theorem get_image_advisory_missing (svc : LLMService) (oracle : Oracle)
    (fs : FS) (p q : String) (hfile : fs p = none) :
    svc.get_image_advisory oracle fs p q
      = ([("error", "Image not found: " ++ p)], []) := by
  simp only [LLMService.get_image_advisory, hfile]

theorem detect_disease_ok (svc : LLMService) (oracle : Oracle) (fs : FS)
    (p : String) (lang : Option String) (b : Bytes) (r : LLMResponse)
    (hfile : fs p = some b)
    (h : oracle [svc.diseaseMessage lang b] = Except.ok r) :
    svc.detect_disease oracle fs p lang
      = ([("analysis", r.content.trim)], [[svc.diseaseMessage lang b]]) := by
  simp only [LLMService.detect_disease, hfile, h]

theorem detect_disease_err (svc : LLMService) (oracle : Oracle) (fs : FS)
    (p e : String) (lang : Option String) (b : Bytes) (hfile : fs p = some b)
    (h : oracle [svc.diseaseMessage lang b] = Except.error e) :
    svc.detect_disease oracle fs p lang
      = ([("error", e)], [[svc.diseaseMessage lang b]]) := by
  simp only [LLMService.detect_disease, hfile, h]

theorem detect_disease_missing (svc : LLMService) (oracle : Oracle)
    (fs : FS) (p : String) (lang : Option String) (hfile : fs p = none) :
    svc.detect_disease oracle fs p lang
      = ([("error", "Image not found: " ++ p)], []) := by
  simp only [LLMService.detect_disease, hfile]

theorem image_route_ok (settings : Settings) (oracle : Oracle) (fs0 : FS)
    (file : UploadFile) (uq : String) (r : LLMResponse)
    (hkey : keyConfigured settings = true)
    (h : oracle [(get_llm_service settings).imageMessage uq file.bytes]
          = Except.ok r) :
    get_image_advisory_route settings oracle fs0 file uq
      = ⟨Except.ok [("advisory", r.content.trim)],
         FS.remove
           (FS.write fs0 ("temp_images" ++ "/" ++ file.filename) file.bytes)
           ("temp_images" ++ "/" ++ file.filename),
         [("temp_images" ++ "/" ++ file.filename, file.bytes)],
         [[(get_llm_service settings).imageMessage uq file.bytes]]⟩ := by
  simp only [get_image_advisory_route, hkey,
    get_image_advisory_ok _ _ _ _ _ _ _ (FS.write_self _ _ _) h]
  simp [dictHasKey]

theorem image_route_err (settings : Settings) (oracle : Oracle) (fs0 : FS)
    (file : UploadFile) (uq e : String)
    (hkey : keyConfigured settings = true)
    (h : oracle [(get_llm_service settings).imageMessage uq file.bytes]
          = Except.error e) :
    get_image_advisory_route settings oracle fs0 file uq
      = ⟨Except.error ⟨500, "Failed to process image: "
           ++ httpExceptionStr ⟨500, e⟩⟩,
         FS.remove
           (FS.write fs0 ("temp_images" ++ "/" ++ file.filename) file.bytes)
           ("temp_images" ++ "/" ++ file.filename),
         [("temp_images" ++ "/" ++ file.filename, file.bytes)],
         [[(get_llm_service settings).imageMessage uq file.bytes]]⟩ := by
  simp only [get_image_advisory_route, hkey,
    get_image_advisory_err _ _ _ _ _ _ _ (FS.write_self _ _ _) h]
  simp [dictHasKey, dictGet]

theorem detect_route_ok (settings : Settings) (oracle : Oracle) (fs0 : FS)
    (file : UploadFile) (langParam : Option String) (r : LLMResponse)
    (hkey : keyConfigured settings = true)
    (h : oracle [(get_llm_service settings).diseaseMessage
          (some (langParam.getD "English")) file.bytes] = Except.ok r) :
    detect_crop_disease_route settings oracle fs0 file langParam
      = ⟨Except.ok [("analysis", r.content.trim)],
         FS.remove
           (FS.write fs0 ("temp_images_dd" ++ "/" ++ file.filename) file.bytes)
           ("temp_images_dd" ++ "/" ++ file.filename),
         [("temp_images_dd" ++ "/" ++ file.filename, file.bytes)],
         [[(get_llm_service settings).diseaseMessage
             (some (langParam.getD "English")) file.bytes]]⟩ := by
  simp only [detect_crop_disease_route, hkey,
    detect_disease_ok _ _ _ _ _ _ _ (FS.write_self _ _ _) h]
  simp [dictHasKey]

theorem detect_route_err (settings : Settings) (oracle : Oracle) (fs0 : FS)
    (file : UploadFile) (langParam : Option String) (e : String)
    (hkey : keyConfigured settings = true)
    (h : oracle [(get_llm_service settings).diseaseMessage
          (some (langParam.getD "English")) file.bytes] = Except.error e) :
    detect_crop_disease_route settings oracle fs0 file langParam
      = ⟨Except.error ⟨500, "Failed to process image: "
           ++ httpExceptionStr ⟨500, e⟩⟩,
         FS.remove
           (FS.write fs0 ("temp_images_dd" ++ "/" ++ file.filename) file.bytes)
           ("temp_images_dd" ++ "/" ++ file.filename),
         [("temp_images_dd" ++ "/" ++ file.filename, file.bytes)],
         [[(get_llm_service settings).diseaseMessage
             (some (langParam.getD "English")) file.bytes]]⟩ := by
  simp only [detect_crop_disease_route, hkey,
    detect_disease_err _ _ _ _ _ _ _ (FS.write_self _ _ _) h]
  simp [dictHasKey, dictGet]

theorem get_advisory_calls_le_one (svc : LLMService) (oracle : Oracle)
    (q : String) : (svc.get_advisory oracle q).2.length ≤ 1 := by
  simp only [LLMService.get_advisory]
  split <;> simp

theorem get_image_advisory_calls_le_one (svc : LLMService) (oracle : Oracle)
    (fs : FS) (p q : String) :
    (svc.get_image_advisory oracle fs p q).2.length ≤ 1 := by
  simp only [LLMService.get_image_advisory]
  split
  · simp
  · split <;> simp

theorem detect_disease_calls_le_one (svc : LLMService) (oracle : Oracle)
    (fs : FS) (p : String) (lang : Option String) :
    (svc.detect_disease oracle fs p lang).2.length ≤ 1 := by
  simp only [LLMService.detect_disease]
  split
  · simp
  · split <;> simp

theorem text_route_calls_le_one (settings : Settings) (oracle : Oracle)
    (uq : String) :
    (get_text_advisory_route settings oracle uq).2.length ≤ 1 := by
  simp only [get_text_advisory_route]
  split
  · simp
  · split
    · simp
    · split
      · exact get_advisory_calls_le_one _ _ _
      · exact get_advisory_calls_le_one _ _ _

theorem image_route_calls_le_one (settings : Settings) (oracle : Oracle)
    (fs0 : FS) (file : UploadFile) (uq : String) :
    (get_image_advisory_route settings oracle fs0 file uq).calls.length ≤ 1 := by
  simp only [get_image_advisory_route]
  split
  · simp
  · split
    · exact get_image_advisory_calls_le_one _ _ _ _ _
    · exact get_image_advisory_calls_le_one _ _ _ _ _

theorem detect_route_calls_le_one (settings : Settings) (oracle : Oracle)
    (fs0 : FS) (file : UploadFile) (langParam : Option String) :
    (detect_crop_disease_route settings oracle fs0 file langParam).calls.length
      ≤ 1 := by
  simp only [detect_crop_disease_route]
  split
  · simp
  · split
    · exact detect_disease_calls_le_one _ _ _ _ _
    · exact detect_disease_calls_le_one _ _ _ _ _

theorem batch_eq_map (oracle : Oracle) (marks_template : String) (marks : Nat)
    (imgs : List Bytes) :
    evaluate_answer_sheets_batch oracle marks_template marks imgs
      = imgs.map (evaluate_answer_sheet oracle marks_template marks) := by
  induction imgs with
  | nil => rfl
  | cons a t ih => simp [evaluate_answer_sheets_batch, ih]

/-! ### Claim theorems -/

/-- C1: every service operation (`get_advisory`, `get_image_advisory`,
`detect_disease`) catches any exception raised during processing rather
than propagating it, and returns a dictionary whose error field holds the
exception message as a single string: when the model invocation raises
`e` the result is the singleton error dictionary for `e`, and when the
image file is missing the FileNotFoundError message is surfaced the same
way. -/
theorem service_ops_catch_and_return_error
    (svc : LLMService) (oracle : Oracle) (e : String)
    (h : ∀ msgs, oracle msgs = Except.error e)
    (fs fsM : FS) (p q : String) (lang : Option String) (b : Bytes)
    (hfile : fs p = some b) (hmiss : fsM p = none) :
    (svc.get_advisory oracle q).1 = [("error", e)] ∧
    (svc.get_image_advisory oracle fs p q).1 = [("error", e)] ∧
    (svc.detect_disease oracle fs p lang).1 = [("error", e)] ∧
    (svc.get_image_advisory oracle fsM p q).1
      = [("error", "Image not found: " ++ p)] ∧
    (svc.detect_disease oracle fsM p lang).1
      = [("error", "Image not found: " ++ p)] := by
  refine ⟨?_, ?_, ?_, ?_, ?_⟩
  · rw [get_advisory_err _ _ _ _ (h _)]
  · rw [get_image_advisory_err _ _ _ _ _ _ _ hfile (h _)]
  · rw [detect_disease_err _ _ _ _ _ _ _ hfile (h _)]
  · rw [get_image_advisory_missing _ _ _ _ _ hmiss]
  · rw [detect_disease_missing _ _ _ _ _ hmiss]

/-- Witness for C1: the always-raising oracle and a concrete filesystem. -/
theorem service_ops_catch_and_return_error_witness :
    ((LLMService.init "k").get_advisory errOracle "q").1
      = [("error", "boom")] ∧
    ((LLMService.init "k").get_image_advisory errOracle fsOne
        "temp_images/leaf.png" "q").1 = [("error", "boom")] ∧
    ((LLMService.init "k").detect_disease errOracle fsOne
        "temp_images/leaf.png" (some "Hindi")).1 = [("error", "boom")] ∧
    ((LLMService.init "k").get_image_advisory errOracle fsW
        "temp_images/leaf.png" "q").1
      = [("error", "Image not found: " ++ "temp_images/leaf.png")] ∧
    ((LLMService.init "k").detect_disease errOracle fsW
        "temp_images/leaf.png" (some "Hindi")).1
      = [("error", "Image not found: " ++ "temp_images/leaf.png")] :=
  service_ops_catch_and_return_error (LLMService.init "k") errOracle "boom"
    (fun _ => rfl) fsOne fsW "temp_images/leaf.png" "q" (some "Hindi")
    [1, 2, 3] (by simp [fsOne, FS.write, fsW]) rfl

/-- C4: when the model invocation succeeds, `get_advisory` returns the
dictionary mapping `advisory` to the response content with surrounding
whitespace stripped, and the single prompt sent to the model is the
advisory template with its query placeholder replaced by the user
query. -/
theorem get_advisory_success_shape (k q : String) (oracle : Oracle)
    (r : LLMResponse)
    (h : oracle [(LLMService.init k).advisoryMessage q] = Except.ok r) :
    (LLMService.init k).get_advisory oracle q
      = ([("advisory", r.content.trim)],
         [[⟨MsgContent.str (pyFormatQuery advisory_prompt_template q)⟩]]) := by
  rw [get_advisory_ok _ _ _ _ h]
  rfl

/-- Witness for C4: the always-succeeding oracle at a concrete query. -/
theorem get_advisory_success_shape_witness :
    (LLMService.init "k").get_advisory okOracle "Which crop suits sandy soil?"
      = ([("advisory", (LLMResponse.mk "  advice  ").content.trim)],
         [[⟨MsgContent.str (pyFormatQuery advisory_prompt_template
              "Which crop suits sandy soil?")⟩]]) :=
  get_advisory_success_shape "k" "Which crop suits sandy soil?" okOracle
    ⟨"  advice  "⟩ rfl

/-- C6: each handled request invokes the remote model at most once, on
every endpoint and for every outcome: the recorded list of `ainvoke`
calls never has more than one element, so there is no retry and no second
invocation. -/
theorem model_invoked_at_most_once (settings : Settings) (oracle : Oracle)
    (fs0 : FS) (file : UploadFile) (uq : String) (langParam : Option String) :
    (get_text_advisory_route settings oracle uq).2.length ≤ 1 ∧
    (get_image_advisory_route settings oracle fs0 file uq).calls.length ≤ 1 ∧
    (detect_crop_disease_route settings oracle fs0 file langParam).calls.length
      ≤ 1 :=
  ⟨text_route_calls_le_one _ _ _, image_route_calls_le_one _ _ _ _ _,
   detect_route_calls_le_one _ _ _ _ _⟩

/-- C7: the (spec-modelled) answer-sheet grading batch evaluation is the
sequential loop of evaluate-single-image over the input images: it equals
the elementwise map, has one entry per image, and preserves the arrival
order of the images (the i-th result is the evaluation of the i-th
image). -/
theorem batch_evaluation_sequential_order (oracle : Oracle)
    (marks_template : String) (marks : Nat) (imgs : List Bytes) :
    evaluate_answer_sheets_batch oracle marks_template marks imgs
      = imgs.map (evaluate_answer_sheet oracle marks_template marks) ∧
    (evaluate_answer_sheets_batch oracle marks_template marks imgs).length
      = imgs.length ∧
    ∀ i : Nat,
      (evaluate_answer_sheets_batch oracle marks_template marks imgs)[i]?
        = (imgs[i]?).map (evaluate_answer_sheet oracle marks_template marks) := by
  refine ⟨batch_eq_map _ _ _ _, ?_, ?_⟩
  · rw [batch_eq_map]
    simp
  · intro i
    rw [batch_eq_map]
    simp

/-- C8: with the service dependency resolvable, a request to the
text-advisory endpoint whose user_query is the empty string raises HTTP
400 with detail `Query string cannot be empty.`, and the remote model is
never invoked (no `ainvoke` call is recorded). -/
theorem empty_query_rejected_before_llm (settings : Settings)
    (oracle : Oracle) (hkey : keyConfigured settings = true) :
    get_text_advisory_route settings oracle ""
      = (Except.error ⟨400, "Query string cannot be empty."⟩, []) := by
  simp [get_text_advisory_route, hkey]

/-- Witness for C8: concrete configured settings. -/
theorem empty_query_rejected_before_llm_witness :
    keyConfigured settingsW = true ∧
    get_text_advisory_route settingsW okOracle ""
      = (Except.error ⟨400, "Query string cannot be empty."⟩, []) :=
  ⟨by decide, empty_query_rejected_before_llm settingsW okOracle (by decide)⟩

/-- C9: when GEMINI_API_KEY is unset or empty, every endpoint fails with
HTTP 500 and detail `Gemini API key is not configured.` during dependency
resolution: the filesystem is untouched, nothing is written, and no model
call is made. -/
theorem missing_api_key_rejected (settings : Settings) (oracle : Oracle)
    (fs0 : FS) (file : UploadFile) (uq : String) (langParam : Option String)
    (hkey : keyConfigured settings = false) :
    get_text_advisory_route settings oracle uq
      = (Except.error ⟨500, "Gemini API key is not configured."⟩, []) ∧
    get_image_advisory_route settings oracle fs0 file uq
      = ⟨Except.error ⟨500, "Gemini API key is not configured."⟩,
         fs0, [], []⟩ ∧
    detect_crop_disease_route settings oracle fs0 file langParam
      = ⟨Except.error ⟨500, "Gemini API key is not configured."⟩,
         fs0, [], []⟩ := by
  refine ⟨?_, ?_, ?_⟩ <;>
    simp [get_text_advisory_route, get_image_advisory_route,
      detect_crop_disease_route, hkey]

/-- Witness for C9: settings with the key unset. -/
theorem missing_api_key_rejected_witness :
    keyConfigured settingsBad = false ∧
    get_text_advisory_route settingsBad okOracle "q"
      = (Except.error ⟨500, "Gemini API key is not configured."⟩, []) ∧
    get_image_advisory_route settingsBad okOracle fsW uploadW "q"
      = ⟨Except.error ⟨500, "Gemini API key is not configured."⟩,
         fsW, [], []⟩ ∧
    detect_crop_disease_route settingsBad okOracle fsW uploadW none
      = ⟨Except.error ⟨500, "Gemini API key is not configured."⟩,
         fsW, [], []⟩ :=
  ⟨by decide, missing_api_key_rejected settingsBad okOracle fsW uploadW "q"
    none (by decide)⟩

/-- C2: with the dependency resolvable, each image endpoint follows
exactly the pipeline persist → base64-encode → build one prompt from the
string template → invoke the model once with the prompt text and the
encoded image → return the model text content (or an error payload on
exception): the single file write is the upload saved under the scratch
directory, the single model call carries the formatted template and the
data URL of the base64-encoded upload bytes, and the response is the
model content on success or the error payload on exception. -/
theorem image_endpoints_pipeline (settings : Settings) (oracle : Oracle)
    (fs0 : FS) (file : UploadFile) (uq : String) (langParam : Option String)
    (hkey : keyConfigured settings = true) :
    ((get_image_advisory_route settings oracle fs0 file uq).written
        = [("temp_images" ++ "/" ++ file.filename, file.bytes)] ∧
      (get_image_advisory_route settings oracle fs0 file uq).calls
        = [[⟨MsgContent.parts
              [ContentPart.text
                 (pyFormatQuery image_advisory_prompt_template uq),
               ContentPart.image_url
                 ("data:image/png;base64," ++ b64encode file.bytes)]⟩]] ∧
      (get_image_advisory_route settings oracle fs0 file uq).response
        = match oracle [(get_llm_service settings).imageMessage uq file.bytes]
            with
          | Except.ok r => Except.ok [("advisory", r.content.trim)]
          | Except.error e => Except.error ⟨500, "Failed to process image: "
              ++ httpExceptionStr ⟨500, e⟩⟩) ∧
    ((detect_crop_disease_route settings oracle fs0 file langParam).written
        = [("temp_images_dd" ++ "/" ++ file.filename, file.bytes)] ∧
      (detect_crop_disease_route settings oracle fs0 file langParam).calls
        = [[⟨MsgContent.parts
              [ContentPart.text
                 (pyFormatLanguage disease_detection_prompt_template
                   (langParam.getD "English")),
               ContentPart.image_url
                 ("data:image/png;base64," ++ b64encode file.bytes)]⟩]] ∧
      (detect_crop_disease_route settings oracle fs0 file langParam).response
        = match oracle [(get_llm_service settings).diseaseMessage
              (some (langParam.getD "English")) file.bytes] with
          | Except.ok r => Except.ok [("analysis", r.content.trim)]
          | Except.error e => Except.error ⟨500, "Failed to process image: "
              ++ httpExceptionStr ⟨500, e⟩⟩) := by
  constructor
  · cases h : oracle [(get_llm_service settings).imageMessage uq file.bytes]
      with
    | ok r =>
        rw [image_route_ok _ _ _ _ _ _ hkey h]
        exact ⟨rfl, rfl, rfl⟩
    | error e =>
        rw [image_route_err _ _ _ _ _ _ hkey h]
        exact ⟨rfl, rfl, rfl⟩
  · cases h : oracle [(get_llm_service settings).diseaseMessage
        (some (langParam.getD "English")) file.bytes] with
    | ok r =>
        rw [detect_route_ok _ _ _ _ _ _ hkey h]
        exact ⟨rfl, rfl, rfl⟩
    | error e =>
        rw [detect_route_err _ _ _ _ _ _ hkey h]
        exact ⟨rfl, rfl, rfl⟩

/-- Witness for C2: concrete settings, upload and (raising) oracle. -/
theorem image_endpoints_pipeline_witness :
    keyConfigured settingsW = true ∧
    ((get_image_advisory_route settingsW errOracle fsW uploadW "q").written
        = [("temp_images" ++ "/" ++ uploadW.filename, uploadW.bytes)] ∧
      (get_image_advisory_route settingsW errOracle fsW uploadW "q").calls
        = [[⟨MsgContent.parts
              [ContentPart.text
                 (pyFormatQuery image_advisory_prompt_template "q"),
               ContentPart.image_url
                 ("data:image/png;base64," ++ b64encode uploadW.bytes)]⟩]] ∧
      (get_image_advisory_route settingsW errOracle fsW uploadW "q").response
        = match errOracle [(get_llm_service settingsW).imageMessage "q"
              uploadW.bytes] with
          | Except.ok r => Except.ok [("advisory", r.content.trim)]
          | Except.error e => Except.error ⟨500, "Failed to process image: "
              ++ httpExceptionStr ⟨500, e⟩⟩) ∧
    ((detect_crop_disease_route settingsW errOracle fsW uploadW none).written
        = [("temp_images_dd" ++ "/" ++ uploadW.filename, uploadW.bytes)] ∧
      (detect_crop_disease_route settingsW errOracle fsW uploadW none).calls
        = [[⟨MsgContent.parts
              [ContentPart.text
                 (pyFormatLanguage disease_detection_prompt_template "English"),
               ContentPart.image_url
                 ("data:image/png;base64," ++ b64encode uploadW.bytes)]⟩]] ∧
      (detect_crop_disease_route settingsW errOracle fsW uploadW none).response
        = match errOracle [(get_llm_service settingsW).diseaseMessage
              (some "English") uploadW.bytes] with
          | Except.ok r => Except.ok [("analysis", r.content.trim)]
          | Except.error e => Except.error ⟨500, "Failed to process image: "
              ++ httpExceptionStr ⟨500, e⟩⟩) :=
  ⟨by decide,
   image_endpoints_pipeline settingsW errOracle fsW uploadW "q" none
     (by decide)⟩

/-- C3: for both image endpoints, whatever the outcome (success payload
or rewrapped error), the temporary file written under the scratch
directory no longer exists when the handler finishes, and every other
path of the filesystem is left exactly as it was. -/
theorem image_endpoints_temp_file_cleanup (settings : Settings)
    (oracle : Oracle) (fs0 : FS) (file : UploadFile) (uq : String)
    (langParam : Option String) (hkey : keyConfigured settings = true) :
    ((get_image_advisory_route settings oracle fs0 file uq).fs
        ("temp_images" ++ "/" ++ file.filename) = none ∧
      ∀ p, p ≠ "temp_images" ++ "/" ++ file.filename →
        (get_image_advisory_route settings oracle fs0 file uq).fs p
          = fs0 p) ∧
    ((detect_crop_disease_route settings oracle fs0 file langParam).fs
        ("temp_images_dd" ++ "/" ++ file.filename) = none ∧
      ∀ p, p ≠ "temp_images_dd" ++ "/" ++ file.filename →
        (detect_crop_disease_route settings oracle fs0 file langParam).fs p
          = fs0 p) := by
  have hA : (get_image_advisory_route settings oracle fs0 file uq).fs
      = FS.remove
          (FS.write fs0 ("temp_images" ++ "/" ++ file.filename) file.bytes)
          ("temp_images" ++ "/" ++ file.filename) := by
    cases h : oracle [(get_llm_service settings).imageMessage uq file.bytes]
        with
    | ok r => rw [image_route_ok _ _ _ _ _ _ hkey h]
    | error e => rw [image_route_err _ _ _ _ _ _ hkey h]
  have hB : (detect_crop_disease_route settings oracle fs0 file langParam).fs
      = FS.remove
          (FS.write fs0 ("temp_images_dd" ++ "/" ++ file.filename) file.bytes)
          ("temp_images_dd" ++ "/" ++ file.filename) := by
    cases h : oracle [(get_llm_service settings).diseaseMessage
        (some (langParam.getD "English")) file.bytes] with
    | ok r => rw [detect_route_ok _ _ _ _ _ _ hkey h]
    | error e => rw [detect_route_err _ _ _ _ _ _ hkey h]
  refine ⟨⟨?_, ?_⟩, ⟨?_, ?_⟩⟩
  · rw [hA]
    simp [FS.remove]
  · intro p hp
    rw [hA]
    have hp2 : p ≠ "temp_images/" ++ file.filename := by simpa using hp
    simp [FS.remove, FS.write, hp2]
  · rw [hB]
    simp [FS.remove]
  · intro p hp
    rw [hB]
    have hp2 : p ≠ "temp_images_dd/" ++ file.filename := by simpa using hp
    simp [FS.remove, FS.write, hp2]

/-- Witness for C3: concrete inputs; the untouched path `crops.txt`. -/
theorem image_endpoints_temp_file_cleanup_witness :
    keyConfigured settingsW = true ∧
    (get_image_advisory_route settingsW errOracle fsW uploadW "q").fs
      ("temp_images" ++ "/" ++ uploadW.filename) = none ∧
    (get_image_advisory_route settingsW errOracle fsW uploadW "q").fs
      "crops.txt" = fsW "crops.txt" ∧
    (detect_crop_disease_route settingsW errOracle fsW uploadW none).fs
      ("temp_images_dd" ++ "/" ++ uploadW.filename) = none ∧
    (detect_crop_disease_route settingsW errOracle fsW uploadW none).fs
      "crops.txt" = fsW "crops.txt" :=
  ⟨by decide,
   (image_endpoints_temp_file_cleanup settingsW errOracle fsW uploadW "q"
     none (by decide)).1.1,
   (image_endpoints_temp_file_cleanup settingsW errOracle fsW uploadW "q"
     none (by decide)).1.2 "crops.txt" (by decide),
   (image_endpoints_temp_file_cleanup settingsW errOracle fsW uploadW "q"
     none (by decide)).2.1,
   (image_endpoints_temp_file_cleanup settingsW errOracle fsW uploadW "q"
     none (by decide)).2.2 "crops.txt" (by decide)⟩

/-- C5: the disease-detection prompt sent to the model is the disease
template with its language placeholder replaced by the requested
language, which FastAPI defaults to English when the request omits the
lang parameter (`langParam = none`); on success the result is returned
under an analysis field. -/
theorem detect_disease_language_selection (settings : Settings)
    (oracle : Oracle) (fs0 : FS) (file : UploadFile)
    (langParam : Option String) (r : LLMResponse)
    (hkey : keyConfigured settings = true)
    (hok : oracle [(get_llm_service settings).diseaseMessage
        (some (langParam.getD "English")) file.bytes] = Except.ok r) :
    (detect_crop_disease_route settings oracle fs0 file langParam).calls
      = [[⟨MsgContent.parts
            [ContentPart.text
               (pyFormatLanguage disease_detection_prompt_template
                 (langParam.getD "English")),
             ContentPart.image_url
               ("data:image/png;base64," ++ b64encode file.bytes)]⟩]] ∧
    (detect_crop_disease_route settings oracle fs0 file langParam).response
      = Except.ok [("analysis", r.content.trim)] := by
  rw [detect_route_ok _ _ _ _ _ _ hkey hok]
  exact ⟨rfl, rfl⟩

/-- Witness for C5: the lang parameter omitted, so the prompt is the
template formatted with `English`. -/
theorem detect_disease_language_selection_witness :
    keyConfigured settingsW = true ∧
    (detect_crop_disease_route settingsW okOracle fsW uploadW none).calls
      = [[⟨MsgContent.parts
            [ContentPart.text
               (pyFormatLanguage disease_detection_prompt_template "English"),
             ContentPart.image_url
               ("data:image/png;base64," ++ b64encode uploadW.bytes)]⟩]] ∧
    (detect_crop_disease_route settingsW okOracle fsW uploadW none).response
      = Except.ok [("analysis", (LLMResponse.mk "  advice  ").content.trim)] :=
  ⟨by decide,
   (detect_disease_language_selection settingsW okOracle fsW uploadW none
     ⟨"  advice  "⟩ (by decide) rfl).1,
   (detect_disease_language_selection settingsW okOracle fsW uploadW none
     ⟨"  advice  "⟩ (by decide) rfl).2⟩

/-- C10: when the service surfaces an error dictionary, the 500
HTTPException raised inside the try block is itself caught by the generic
except branch and rewrapped: the client receives HTTP 500 whose detail is
the prefix `Failed to process image: ` followed by the string form of the
inner HTTPException (status code, colon, detail), not the bare service
error string. -/
theorem service_error_rewrapped_500 (settings : Settings) (oracle : Oracle)
    (fs0 : FS) (file : UploadFile) (uq e : String)
    (langParam : Option String) (hkey : keyConfigured settings = true)
    (herr : ∀ msgs, oracle msgs = Except.error e) :
    (get_image_advisory_route settings oracle fs0 file uq).response
      = Except.error ⟨500, "Failed to process image: "
          ++ httpExceptionStr ⟨500, e⟩⟩ ∧
    (detect_crop_disease_route settings oracle fs0 file langParam).response
      = Except.error ⟨500, "Failed to process image: "
          ++ httpExceptionStr ⟨500, e⟩⟩ := by
  rw [image_route_err _ _ _ _ _ _ hkey (herr _),
    detect_route_err _ _ _ _ _ _ hkey (herr _)]
  exact ⟨rfl, rfl⟩

/-- Witness for C10: the raising oracle; the rewrapped detail embeds the
inner 500 and the service error string. -/
theorem service_error_rewrapped_500_witness :
    keyConfigured settingsW = true ∧
    (get_image_advisory_route settingsW errOracle fsW uploadW "q").response
      = Except.error ⟨500, "Failed to process image: "
          ++ httpExceptionStr ⟨500, "boom"⟩⟩ ∧
    (detect_crop_disease_route settingsW errOracle fsW uploadW none).response
      = Except.error ⟨500, "Failed to process image: "
          ++ httpExceptionStr ⟨500, "boom"⟩⟩ :=
  ⟨by decide,
   (service_error_rewrapped_500 settingsW errOracle fsW uploadW "q" "boom"
     none (by decide) (fun _ => rfl)).1,
   (service_error_rewrapped_500 settingsW errOracle fsW uploadW "q" "boom"
     none (by decide) (fun _ => rfl)).2⟩

end KrishiMitra
